import Mathlib

/-!
# Verification of the quotation-builder script (`src/script.js`)

Shallow embedding of the client-side quotation builder: the line-item
store, the totals engine, the view-mode controller and the row renderer.

Modelling conventions:
* JavaScript numbers are modelled by `JSNum`: an exact rational together
  with the special values `NaN`, `Infinity` and `-Infinity`.  The script
  performs no explicit rounding during accumulation, so arithmetic is
  exact here; binary floating-point rounding is outside the model.
* `parseFloat` results are passed in as a `JSNum` (`"Infinity"` parses to
  `JSNum.posInf`, an unparsable field to `JSNum.nan`); `parseInt` results
  are passed in as an `Option Int` (`none` models `NaN`).
* `Date.now()` readings are passed in explicitly as natural-number
  arguments (`now`, `t0`, `t1`), since the script derives item ids from
  the clock.
* DOM writes (`textContent`, `innerHTML`, input clearing) are modelled as
  the pure view-model values the script writes: rendered rows, footer
  colspan, header visibility, button text.  CSS class strings that the
  script computes per cell are kept verbatim.
-/

namespace FidesQuotation

/-- A JavaScript number as the script observes it: `NaN`, the two
infinities, or a finite value (kept exact as a rational). -/
inductive JSNum where
  | nan : JSNum
  | posInf : JSNum
  | negInf : JSNum
  | fin : ℚ → JSNum
deriving DecidableEq, Repr

namespace JSNum

/-- `isNaN(x)` from JavaScript. -/
def isNaN : JSNum → Bool
  | nan => true
  | _ => false

/-- Whether the value is an ordinary finite number. -/
def isFinite : JSNum → Bool
  | fin _ => true
  | _ => false

/-- The JavaScript comparison `x <= 0` (false on `NaN`). -/
def leZero : JSNum → Bool
  | nan => false
  | posInf => false
  | negInf => true
  | fin q => q ≤ 0

/-- JavaScript addition on the modelled domain. -/
def add : JSNum → JSNum → JSNum
  | nan, _ => nan
  | _, nan => nan
  | posInf, negInf => nan
  | negInf, posInf => nan
  | posInf, _ => posInf
  | _, posInf => posInf
  | negInf, _ => negInf
  | _, negInf => negInf
  | fin a, fin b => fin (a + b)

/-- JavaScript multiplication on the modelled domain. -/
def mul : JSNum → JSNum → JSNum
  | nan, _ => nan
  | _, nan => nan
  | posInf, posInf => posInf
  | posInf, negInf => negInf
  | negInf, posInf => negInf
  | negInf, negInf => posInf
  | posInf, fin q => if 0 < q then posInf else if q < 0 then negInf else nan
  | fin q, posInf => if 0 < q then posInf else if q < 0 then negInf else nan
  | negInf, fin q => if 0 < q then negInf else if q < 0 then posInf else nan
  | fin q, negInf => if 0 < q then negInf else if q < 0 then posInf else nan
  | fin a, fin b => fin (a * b)

end JSNum

/-- `const VAT_RATE = 0.18` (line 3 of `script.js`). -/
def VAT_RATE : ℚ := 18 / 100

/-- One element of the `products` array: `{ id, name, price, qty }`. -/
structure Product where
  id : ℕ
  name : String
  price : JSNum
  qty : ℤ
deriving DecidableEq, Repr

/-- The script's mutable state: the `products` array, the `isSummaryMode`
flag, and the DOM attributes that `toggleSummaryView` writes (the
`hidden` class on `headerPrice`, the footer `colspan`, the toggle
button's label). -/
structure State where
  products : List Product
  isSummaryMode : Bool
  headerPriceHidden : Bool
  footerColspan : ℕ
  summaryButtonText : String
deriving DecidableEq, Repr

/-- The single error kind: `addProduct` logs one combined validation
message (`console.error`, line 46) and rejects the add. -/
inductive ValidationError where
  | invalidInput : ValidationError
deriving DecidableEq, Repr

/-- JavaScript `String.prototype.trim`: drops leading and trailing
whitespace (kept as an explicit list computation so that it evaluates
inside the kernel). -/
def jsTrim (s : String) : String :=
  ⟨((s.data.dropWhile Char.isWhitespace).reverse.dropWhile Char.isWhitespace).reverse⟩

/-- `isNaN(qty)` where `qty = parseInt(...)`: `parseInt` returns `NaN`
(modelled `none`) or an integer. -/
def qtyIsNaN (q : Option ℤ) : Bool := q.isNone

/-- The JavaScript comparison `qty <= 0` on a `parseInt` result
(false on `NaN`). -/
def qtyLeZero : Option ℤ → Bool
  | none => false
  | some n => n ≤ 0

/-- `addProduct` (lines 40–63): trims the name, validates
`!name || isNaN(price) || price <= 0 || isNaN(qty) || qty <= 0`; on
failure logs a validation error and leaves the state unchanged; on
success pushes `{ id: Date.now(), name, price, qty }` onto `products`.
The clock reading is the explicit argument `now`.  (Input-field clearing
and the re-render on success are DOM effects outside the state.) -/
def addProduct (s : State) (rawName : String) (price : JSNum)
    (qty : Option ℤ) (now : ℕ) : State × Option ValidationError :=
  let name := jsTrim rawName
  if name == "" || price.isNaN || price.leZero || qtyIsNaN qty || qtyLeZero qty then
    (s, some ValidationError.invalidInput)
  else
    ({ s with
        products := s.products ++
          [{ id := now, name := name, price := price, qty := qty.getD 0 }] },
     none)

/-- `deleteProduct` (lines 69–72): `products = products.filter(p => p.id !== id)`. -/
def deleteProduct (ps : List Product) (i : ℕ) : List Product :=
  ps.filter fun p => p.id != i

/-- The value of a `deleteProduct(id)` call expression: the JavaScript
function body has no `return` statement, so the call evaluates to
`undefined`, modelled as `none : Option Bool` (the spec expects a
boolean here, hence the `Option Bool` carrier). -/
def deleteProductReturn (_ps : List Product) (_i : ℕ) : Option Bool := none

/-- The accumulation inside `calculateTotals` (line 78):
`products.reduce((acc, p) => acc + (p.price * p.qty), 0)`. -/
def subtotal (ps : List Product) : JSNum :=
  ps.foldl (fun acc p => acc.add (p.price.mul (JSNum.fin (p.qty : ℚ)))) (JSNum.fin 0)

/-- `let vatAmount = subtotal * VAT_RATE` (line 79). -/
def vatAmount (ps : List Product) : JSNum :=
  (subtotal ps).mul (JSNum.fin VAT_RATE)

/-- `let grandTotal = subtotal + vatAmount` (line 80). -/
def grandTotal (ps : List Product) : JSNum :=
  (subtotal ps).add (vatAmount ps)

/-- The exact rational carried by a finite `JSNum` (0 on the special
values; only used under a finiteness hypothesis). -/
def Product.priceQ (p : Product) : ℚ :=
  match p.price with
  | JSNum.fin q => q
  | _ => 0

/-- One rendered table row as `renderProducts` builds it (lines 97–123):
the displayed 1-based index, the cells, the per-cell CSS classes the
script computes, the page-break marker added when `index === 9`, and the
id bound to the row's delete button. -/
structure Row where
  rowIndex : ℕ
  name : String
  qty : ℤ
  qtyClass : String
  price : JSNum
  priceClass : String
  lineTotal : JSNum
  pageBreak : Bool
  deleteId : ℕ
deriving DecidableEq, Repr

/-- The body of the `products.forEach((p, index) => ...)` loop in
`renderProducts`: `qtyClass` is always the responsive default,
`priceClass` is `'hidden'` in summary mode and the responsive default
otherwise, and the page-break class is added exactly when `index === 9`. -/
def renderRow (isSummaryMode : Bool) (index : ℕ) (p : Product) : Row :=
  { rowIndex := index + 1
    name := p.name
    qty := p.qty
    qtyClass := "hidden lg:table-cell"
    price := p.price
    priceClass := if isSummaryMode then "hidden" else "hidden lg:table-cell"
    lineTotal := p.price.mul (JSNum.fin (p.qty : ℚ))
    pageBreak := index == 9
    deleteId := p.id }

/-- `renderProducts` (lines 90–126): clears the table body and rebuilds
one row per product, in order, with the running index. -/
def renderProducts (ps : List Product) (isSummaryMode : Bool) : List Row :=
  ps.enum.map fun ip => renderRow isSummaryMode ip.1 ip.2

/-- `const totalFooterColumns = 4` (line 143). -/
def totalFooterColumns : ℕ := 4

/-- `toggleSummaryView` (lines 131–171): flips `isSummaryMode`, updates
the button label, hides or shows the unit-price header, and sets the
footer label cells' `colspan` to `totalFooterColumns - 1` in summary
mode and `totalFooterColumns` in detailed mode, then re-renders. -/
def toggleSummaryView (s : State) : State :=
  let mode := !s.isSummaryMode
  let label := if mode then "Exit Summary View (Show Details)"
               else "Toggle Summary View (Show Totals Only)"
  if mode then
    { s with isSummaryMode := mode, summaryButtonText := label,
             headerPriceHidden := true,
             footerColspan := totalFooterColumns - 1 }
  else
    { s with isSummaryMode := mode, summaryButtonText := label,
             headerPriceHidden := false,
             footerColspan := totalFooterColumns }

/-- `printQuotation` (lines 176–182): leaves summary mode if it is
active, then calls `window.print()`.  The second component records the
`isSummaryMode` flag at the moment the print collaborator is invoked. -/
def printQuotation (s : State) : State × Bool :=
  let s1 := if s.isSummaryMode then toggleSummaryView s else s
  (s1, s1.isSummaryMode)

/-- The three seeded demonstration items (lines 4–8), whose ids are
`Date.now() + 1 .. Date.now() + 3` for the clock reading `t0` at module
evaluation. -/
def seedProducts (t0 : ℕ) : List Product :=
  [ { id := t0 + 1, name := "ERP System License (1 Year)",
      price := JSNum.fin 85000, qty := 1 },
    { id := t0 + 2, name := "On-site Implementation Service",
      price := JSNum.fin 50000, qty := 1 },
    { id := t0 + 3, name := "Custom Reporting Module Development",
      price := JSNum.fin 120000, qty := 1 } ]

/-- The demo-pagination loop (lines 185–192): for `i = 4 .. 12`, pushes
an item with id `Date.now() + i` (clock reading `t1`), price 15000 and
quantity `i % 3 + 1`. -/
def demoProducts (t1 : ℕ) : List Product :=
  (List.range' 4 9).map fun i =>
    { id := t1 + i, name := "Software License Maintenance Package " ++ toString i,
      price := JSNum.fin 15000, qty := ((i % 3 : ℕ) : ℤ) + 1 }

/-- The `products` array after module evaluation: the three seeds
followed by the nine demo items. -/
def initialProducts (t0 t1 : ℕ) : List Product :=
  seedProducts t0 ++ demoProducts t1

/-- The script's state after module evaluation: twelve products,
detailed mode; header visibility and footer colspan start at their
detailed-mode values (the initial markup shows all columns with the
full footer span). -/
def initialState (t0 t1 : ℕ) : State :=
  { products := initialProducts t0 t1
    isSummaryMode := false
    headerPriceHidden := false
    footerColspan := totalFooterColumns
    summaryButtonText := "Toggle Summary View (Show Totals Only)" }

/-- One user action, as dispatched by the page's buttons. -/
inductive Op where
  | add : String → JSNum → Option ℤ → ℕ → Op
  | delete : ℕ → Op
  | toggle : Op
  | print : Op
deriving DecidableEq, Repr

/-- The state transition of one user action. -/
def applyOp (s : State) : Op → State
  | Op.add rawName price qty now => (addProduct s rawName price qty now).1
  | Op.delete i => { s with products := deleteProduct s.products i }
  | Op.toggle => toggleSummaryView s
  | Op.print => (printQuotation s).1

/-- Run a sequence of user actions. -/
def run (s : State) : List Op → State
  | [] => s
  | op :: ops => run (applyOp s op) ops

/-- The clock discipline under which id generation is collision-free:
every `add` that passes validation reads a clock value different from
every id currently in the store. -/
def FreshTrace (s : State) : List Op → Bool
  | [] => true
  | op :: ops =>
    (match op with
     | Op.add rawName price qty now =>
       if (addProduct s rawName price qty now).2 = none then
         !(s.products.map Product.id).contains now
       else
         true
     | _ => true) && FreshTrace (applyOp s op) ops

/-! ## Helper lemmas -/

theorem subtotal_foldl_fin (ps : List Product) (a : ℚ)
    (h : ∀ p ∈ ps, p.price.isFinite = true) :
    ps.foldl (fun acc p => acc.add (p.price.mul (JSNum.fin (p.qty : ℚ)))) (JSNum.fin a)
      = JSNum.fin (a + (ps.map (fun p => p.priceQ * (p.qty : ℚ))).sum) := by
  induction ps generalizing a with
  | nil => simp
  | cons p ps ih =>
    have hp : p.price.isFinite = true := h p (by simp)
    obtain ⟨q, hq⟩ : ∃ q, p.price = JSNum.fin q := by
      cases hpr : p.price <;> simp [JSNum.isFinite, hpr] at hp ⊢
    have hrest : ∀ x ∈ ps, x.price.isFinite = true := fun x hx => h x (by simp [hx])
    rw [List.foldl_cons, List.map_cons, List.sum_cons]
    have hstep : (JSNum.fin a).add (p.price.mul (JSNum.fin (p.qty : ℚ)))
        = JSNum.fin (a + q * (p.qty : ℚ)) := by rw [hq]; rfl
    have hpq : p.priceQ = q := by unfold Product.priceQ; rw [hq]
    rw [hstep, ih _ hrest, hpq]
    exact congrArg JSNum.fin (by ring)

/-- `C1`: for every item list with finite prices, `calculateTotals` yields
`subtotal = Σ unitPrice_i * quantity_i`, `vat = subtotal * 0.18` and
`grandTotal = subtotal + vat`, with exact (unrounded) accumulation. -/
theorem calculateTotals_correct (ps : List Product)
    (h : ∀ p ∈ ps, p.price.isFinite = true) :
    subtotal ps = JSNum.fin ((ps.map (fun p => p.priceQ * (p.qty : ℚ))).sum) ∧
    vatAmount ps
      = JSNum.fin ((ps.map (fun p => p.priceQ * (p.qty : ℚ))).sum * VAT_RATE) ∧
    grandTotal ps
      = JSNum.fin ((ps.map (fun p => p.priceQ * (p.qty : ℚ))).sum
          + (ps.map (fun p => p.priceQ * (p.qty : ℚ))).sum * VAT_RATE) := by
  have hs : subtotal ps = JSNum.fin ((ps.map (fun p => p.priceQ * (p.qty : ℚ))).sum) := by
    unfold subtotal
    rw [subtotal_foldl_fin ps 0 h, zero_add]
  refine ⟨hs, ?_, ?_⟩
  · unfold vatAmount
    rw [hs]
    rfl
  · unfold grandTotal vatAmount
    rw [hs]
    rfl

/-- Witness for `C1` at the spec's scenario: the three seeded items give
subtotal 255000, VAT 45900 and grand total 300900. -/
theorem calculateTotals_correct_witness :
    (∀ p ∈ seedProducts 0, p.price.isFinite = true) ∧
    subtotal (seedProducts 0) = JSNum.fin 255000 ∧
    vatAmount (seedProducts 0) = JSNum.fin 45900 ∧
    grandTotal (seedProducts 0) = JSNum.fin 300900 := by
  have h : ∀ p ∈ seedProducts 0, p.price.isFinite = true := by decide
  obtain ⟨h1, h2, h3⟩ := calculateTotals_correct (seedProducts 0) h
  have hsum : ((seedProducts 0).map (fun p => p.priceQ * (p.qty : ℚ))).sum = 255000 := by
    norm_num [seedProducts, Product.priceQ]
  refine ⟨h, ?_, ?_, ?_⟩
  · rw [h1, hsum]
  · rw [h2, hsum]; norm_num [VAT_RATE]
  · rw [h3, hsum]; norm_num [VAT_RATE]

/-- `C2`: a blank trimmed name, a `NaN` or non-positive price, or a `NaN`
or non-positive quantity makes `addProduct` report the validation error
and leave the state (in particular the store) exactly unchanged. -/
theorem addProduct_rejects_invalid (s : State) (rawName : String) (price : JSNum)
    (qty : Option ℤ) (now : ℕ)
    (h : jsTrim rawName = "" ∨ price.isNaN = true ∨ price.leZero = true ∨
         qtyIsNaN qty = true ∨ qtyLeZero qty = true) :
    addProduct s rawName price qty now = (s, some ValidationError.invalidInput) := by
  unfold addProduct
  have hc : (jsTrim rawName == "" || price.isNaN || price.leZero
      || qtyIsNaN qty || qtyLeZero qty) = true := by
    rcases h with h | h | h | h | h <;> simp [h]
  simp only [hc, if_pos]

/-- Witness for `C2`: the four calls of P3, on the freshly seeded state,
each return the error and the unchanged state. -/
theorem addProduct_rejects_invalid_witness :
    addProduct (initialState 0 0) "" (JSNum.fin 10) (some 1) 99
      = (initialState 0 0, some ValidationError.invalidInput) ∧
    addProduct (initialState 0 0) "x" (JSNum.fin 0) (some 1) 99
      = (initialState 0 0, some ValidationError.invalidInput) ∧
    addProduct (initialState 0 0) "x" (JSNum.fin 10) (some 0) 99
      = (initialState 0 0, some ValidationError.invalidInput) ∧
    addProduct (initialState 0 0) "x" (JSNum.fin (-5)) (some 1) 99
      = (initialState 0 0, some ValidationError.invalidInput) :=
  ⟨addProduct_rejects_invalid _ _ _ _ _ (Or.inl (by decide)),
   addProduct_rejects_invalid _ _ _ _ _ (Or.inr (Or.inr (Or.inl (by decide)))),
   addProduct_rejects_invalid _ _ _ _ _ (Or.inr (Or.inr (Or.inr (Or.inr (by decide))))),
   addProduct_rejects_invalid _ _ _ _ _ (Or.inr (Or.inr (Or.inl (by decide))))⟩

/-- Counterexample to `C5`: the validation test is
`isNaN(price) || price <= 0`, with no finiteness check, so the price
`Infinity` (the value of `parseFloat("Infinity")`) is accepted: no
error is reported and an item with that price is created. -/
theorem addProduct_accepts_infinity :
    (addProduct (initialState 0 0) "x" JSNum.posInf (some 1) 99).2 = none ∧
    (addProduct (initialState 0 0) "x" JSNum.posInf (some 1) 99).1.products
      = initialProducts 0 0
        ++ [{ id := 99, name := "x", price := JSNum.posInf, qty := 1 }] := by
  constructor <;> decide

/-- `C5` (amended): with a valid name and quantity, `addProduct` accepts
the unit price exactly when it is a number other than `NaN` that is not
`<= 0`; in particular the non-finite value `Infinity` is accepted and an
item carrying it is appended to the store. -/
theorem addProduct_price_acceptance (s : State) (rawName : String) (price : JSNum)
    (qty : Option ℤ) (now : ℕ)
    (hname : (jsTrim rawName == "") = false)
    (hq1 : qtyIsNaN qty = false) (hq2 : qtyLeZero qty = false) :
    ((addProduct s rawName price qty now).2 = none ↔
      (price.isNaN = false ∧ price.leZero = false)) ∧
    (price = JSNum.posInf →
      (addProduct s rawName price qty now).1.products
        = s.products
          ++ [{ id := now, name := jsTrim rawName, price := price, qty := qty.getD 0 }]) := by
  unfold addProduct
  constructor
  · cases hn : price.isNaN <;> cases hz : price.leZero <;>
      simp [hname, hq1, hq2, hn, hz]
  · intro hp
    subst hp
    simp [hname, hq1, hq2, JSNum.isNaN, JSNum.leZero]

/-- Witness for `C5` (amended) at a concrete call with price `Infinity`. -/
theorem addProduct_price_acceptance_witness :
    (addProduct (initialState 0 0) "x" JSNum.posInf (some 2) 99).1.products
      = (initialState 0 0).products
        ++ [{ id := 99, name := "x", price := JSNum.posInf, qty := 2 }] := by
  have h := (addProduct_price_acceptance (initialState 0 0) "x" JSNum.posInf (some 2) 99
    (by decide) (by decide) (by decide)).2 rfl
  simpa [show jsTrim "x" = "x" from by decide] using h

theorem addProduct_cases (s : State) (rawName : String) (price : JSNum)
    (qty : Option ℤ) (now : ℕ) :
    addProduct s rawName price qty now = (s, some ValidationError.invalidInput) ∨
    (addProduct s rawName price qty now).2 = none ∧
    (addProduct s rawName price qty now).1.products
      = s.products
        ++ [{ id := now, name := jsTrim rawName, price := price, qty := qty.getD 0 }] := by
  cases hc : (jsTrim rawName == "" || price.isNaN || price.leZero
      || qtyIsNaN qty || qtyLeZero qty) with
  | true => left; simp [addProduct, hc]
  | false => right; simp [addProduct, hc]

theorem toggleSummaryView_products (s : State) :
    (toggleSummaryView s).products = s.products := by
  unfold toggleSummaryView
  cases s.isSummaryMode <;> simp

theorem printQuotation_products (s : State) :
    (printQuotation s).1.products = s.products := by
  unfold printQuotation
  cases h : s.isSummaryMode <;> simp [toggleSummaryView_products]

theorem applyOp_nodup (s : State) (op : Op)
    (h0 : (s.products.map Product.id).Nodup)
    (hop : (match op with
            | Op.add rawName price qty now =>
              if (addProduct s rawName price qty now).2 = none then
                !(s.products.map Product.id).contains now
              else true
            | _ => true) = true) :
    ((applyOp s op).products.map Product.id).Nodup := by
  cases op with
  | add rawName price qty now =>
    rcases addProduct_cases s rawName price qty now with hcase | ⟨he, hp⟩
    · simpa [applyOp, hcase] using h0
    · replace hop : (if (addProduct s rawName price qty now).2 = none then
          !(s.products.map Product.id).contains now else true) = true := hop
      rw [if_pos he] at hop
      have hfresh : now ∉ s.products.map Product.id := by
        simpa using hop
      show (((addProduct s rawName price qty now).1.products).map Product.id).Nodup
      rw [hp, List.map_append]
      refine List.Nodup.append h0 (List.nodup_singleton _) ?_
      intro a ha hb
      simp only [List.map_cons, List.map_nil, List.mem_singleton] at hb
      subst hb
      exact hfresh ha
  | delete i =>
    show ((deleteProduct s.products i).map Product.id).Nodup
    exact List.Nodup.sublist ((List.filter_sublist _).map Product.id) h0
  | toggle =>
    show ((toggleSummaryView s).products.map Product.id).Nodup
    rw [toggleSummaryView_products]
    exact h0
  | print =>
    show ((printQuotation s).1.products.map Product.id).Nodup
    rw [printQuotation_products]
    exact h0

theorem run_nodup (s : State) (ops : List Op)
    (h0 : (s.products.map Product.id).Nodup)
    (h1 : FreshTrace s ops = true) :
    ((run s ops).products.map Product.id).Nodup := by
  induction ops generalizing s with
  | nil => simpa [run] using h0
  | cons op ops ih =>
    rw [run]
    unfold FreshTrace at h1
    rw [Bool.and_eq_true] at h1
    exact ih _ (applyOp_nodup s op h0 h1.1) h1.2

/-- Counterexample to `C3`: item ids come from `Date.now()`.  With the
module-evaluation clock at 0 the seeded ids are 1..12; an accepted add
whose clock reading is 5 assigns id 5 — an id of an already-seeded
item — so the store's ids are no longer pairwise distinct. -/
theorem addProduct_id_collision :
    (5 : ℕ) ∈ (initialState 0 0).products.map Product.id ∧
    (addProduct (initialState 0 0) "New Item" (JSNum.fin 10) (some 1) 5).2 = none ∧
    ¬ ((addProduct (initialState 0 0) "New Item" (JSNum.fin 10) (some 1) 5).1.products.map
        Product.id).Nodup := by
  refine ⟨by decide, by decide, by decide⟩

/-- `C3` (amended): a successful add appends the new item at the end of
the store with id equal to the clock reading; provided every accepted
add reads a clock value distinct from all ids then in the store, any
sequence of user actions preserves pairwise-distinct ids. -/
theorem addProduct_ids_amended :
    (∀ (s : State) (rawName : String) (price : JSNum) (qty : Option ℤ) (now : ℕ),
       (addProduct s rawName price qty now).2 = none →
         (addProduct s rawName price qty now).1.products
           = s.products
             ++ [{ id := now, name := jsTrim rawName, price := price,
                   qty := qty.getD 0 }]) ∧
    (∀ (s : State) (ops : List Op),
       (s.products.map Product.id).Nodup → FreshTrace s ops = true →
         ((run s ops).products.map Product.id).Nodup) := by
  constructor
  · intro s rawName price qty now hnone
    rcases addProduct_cases s rawName price qty now with hcase | ⟨_, hp⟩
    · rw [hcase] at hnone
      exact absurd hnone (by simp)
    · exact hp
  · exact fun s ops => run_nodup s ops

/-- Witness for `C3` (amended): an add at a fresh clock reading followed
by a delete keeps all ids distinct. -/
theorem addProduct_ids_amended_witness :
    ((run (initialState 0 0)
        [Op.add "New Item" (JSNum.fin 10) (some 1) 99, Op.delete 5]).products.map
      Product.id).Nodup :=
  addProduct_ids_amended.2 (initialState 0 0)
    [Op.add "New Item" (JSNum.fin 10) (some 1) 99, Op.delete 5]
    (by decide) (by decide)

/-- Counterexample to `C4`: `deleteProduct` has no `return` statement —
a call evaluates to `undefined`, not to the boolean `true` the claim
requires when a matching item was present and removed. -/
theorem deleteProduct_return_counterexample :
    (∃ p ∈ [({ id := 7, name := "x", price := JSNum.fin 10, qty := 1 } : Product)],
       p.id = 7) ∧
    deleteProductReturn [{ id := 7, name := "x", price := JSNum.fin 10, qty := 1 }] 7
      ≠ some true := by
  refine ⟨by decide, by decide⟩

/-- `C4` (amended): `deleteProduct` returns no value; whether a removal
occurred is the observable fact that the store changed, which happens
exactly when an item with the id was present; a missing id leaves the
store unchanged, and deleting the same id twice equals deleting it
once. -/
theorem deleteProduct_spec (ps : List Product) (i : ℕ) :
    ((∃ p ∈ ps, p.id = i) ↔ deleteProduct ps i ≠ ps) ∧
    deleteProduct (deleteProduct ps i) i = deleteProduct ps i ∧
    ((¬ ∃ p ∈ ps, p.id = i) → deleteProduct ps i = ps) := by
  have hself : ∀ l : List Product, (∀ p ∈ l, p.id ≠ i) → deleteProduct l i = l := by
    intro l hl
    apply List.filter_eq_self.mpr
    intro a ha
    simpa using hl a ha
  refine ⟨⟨?_, ?_⟩, ?_, ?_⟩
  · rintro ⟨p, hp, hpi⟩
    have hlt : (deleteProduct ps i).length < ps.length := by
      apply List.length_filter_lt_length_iff_exists.mpr
      exact ⟨p, hp, by simp [hpi]⟩
    intro he
    rw [he] at hlt
    exact lt_irrefl _ hlt
  · intro hne
    by_contra hnex
    push_neg at hnex
    exact hne (hself ps hnex)
  · apply hself
    intro p hp
    have hmem := List.mem_filter.mp hp
    simpa using hmem.2
  · intro hnex
    push_neg at hnex
    exact hself ps hnex

/-- Witness for `C4` (amended): deleting an absent id from the seeded
store leaves it unchanged. -/
theorem deleteProduct_spec_witness :
    deleteProduct (seedProducts 0) 999 = seedProducts 0 :=
  (deleteProduct_spec (seedProducts 0) 999).2.2 (by decide)

/-- `C6`: printing from summary mode first toggles back to detailed
mode; printing from detailed mode changes nothing; in every case the
print collaborator (`window.print`) runs with `isSummaryMode = false`. -/
theorem printQuotation_detailed (s : State) :
    (printQuotation s).2 = false ∧
    (printQuotation s).1.isSummaryMode = false ∧
    (s.isSummaryMode = true → (printQuotation s).1 = toggleSummaryView s) ∧
    (s.isSummaryMode = false → (printQuotation s).1 = s) := by
  unfold printQuotation
  cases h : s.isSummaryMode <;> simp [h, toggleSummaryView]

/-- Witness for `C6`: printing from the initial (detailed) state is a
no-op transition-wise, and printing from summary mode lands in detailed
mode. -/
theorem printQuotation_detailed_witness :
    (printQuotation (initialState 0 0)).1 = initialState 0 0 ∧
    (printQuotation (toggleSummaryView (initialState 0 0))).1.isSummaryMode = false :=
  ⟨(printQuotation_detailed (initialState 0 0)).2.2.2 (by decide),
   (printQuotation_detailed (toggleSummaryView (initialState 0 0))).2.1⟩

/-- `C7`: the rendered table has one row per item, displayed indices
exactly `1..n` with no gaps, in the store's current insertion order (the
index is recomputed from the loop counter, not stored on items). -/
theorem renderProducts_row_numbering (ps : List Product) (m : Bool) :
    (renderProducts ps m).length = ps.length ∧
    (renderProducts ps m).map Row.rowIndex = List.range' 1 ps.length ∧
    (renderProducts ps m).map Row.name = ps.map Product.name := by
  refine ⟨?_, ?_, ?_⟩
  · simp [renderProducts]
  · rw [renderProducts, List.map_map]
    have h : (Row.rowIndex ∘ fun ip : ℕ × Product => renderRow m ip.1 ip.2)
        = (fun n => n + 1) ∘ Prod.fst := rfl
    rw [h, ← List.map_map, List.enum_map_fst, List.range'_eq_map_range]
    exact List.map_congr_left fun a _ => Nat.add_comm a 1
  · rw [renderProducts, List.map_map]
    have h : (Row.name ∘ fun ip : ℕ × Product => renderRow m ip.1 ip.2)
        = Product.name ∘ Prod.snd := rfl
    rw [h, ← List.map_map, List.enum_map_snd]

/-- `C8`: positionwise, the page-break marker sits exactly on the row
with 0-based index 9, and on no other; instantiated at the twelve
seeded items, exactly the 10th row carries it. -/
theorem renderProducts_page_break (ps : List Product) (m : Bool) :
    ((renderProducts ps m).map Row.pageBreak
      = (List.range ps.length).map (fun i => i == 9)) ∧
    ((renderProducts (initialProducts 0 0) false).map Row.pageBreak
      = [false, false, false, false, false, false, false, false, false,
         true, false, false]) := by
  constructor
  · rw [renderProducts, List.map_map]
    have h : (Row.pageBreak ∘ fun ip : ℕ × Product => renderRow m ip.1 ip.2)
        = (fun i => i == 9) ∘ Prod.fst := rfl
    rw [h, ← List.map_map, List.enum_map_fst]
  · decide

/-- Every rendered row's unit-price cell class is `'hidden'` in summary
mode and the responsive default otherwise (line 111). -/
theorem renderProducts_priceClass (ps : List Product) (m : Bool) (r : Row)
    (hr : r ∈ renderProducts ps m) :
    r.priceClass = if m then "hidden" else "hidden lg:table-cell" := by
  obtain ⟨ip, _, rfl⟩ := List.mem_map.mp hr
  rfl

/-- `C9`: one toggle from detailed mode hides the unit-price header,
gives every rendered row the unconditional `'hidden'` price-cell class,
and sets the footer colspan to 3; a second toggle restores the header,
the responsive price-cell class and colspan 4. -/
theorem toggleSummaryView_columns (s : State) (h : s.isSummaryMode = false) :
    (toggleSummaryView s).isSummaryMode = true ∧
    (toggleSummaryView s).headerPriceHidden = true ∧
    (toggleSummaryView s).footerColspan = 3 ∧
    (∀ r ∈ renderProducts (toggleSummaryView s).products
        (toggleSummaryView s).isSummaryMode, r.priceClass = "hidden") ∧
    (toggleSummaryView (toggleSummaryView s)).isSummaryMode = false ∧
    (toggleSummaryView (toggleSummaryView s)).headerPriceHidden = false ∧
    (toggleSummaryView (toggleSummaryView s)).footerColspan = 4 ∧
    (∀ r ∈ renderProducts (toggleSummaryView (toggleSummaryView s)).products
        (toggleSummaryView (toggleSummaryView s)).isSummaryMode,
       r.priceClass = "hidden lg:table-cell") := by
  have e1 : toggleSummaryView s
      = { s with
          isSummaryMode := true
          summaryButtonText := "Exit Summary View (Show Details)"
          headerPriceHidden := true
          footerColspan := 3 } := by
    unfold toggleSummaryView
    rw [h]
    rfl
  have e2 : toggleSummaryView (toggleSummaryView s)
      = { s with
          isSummaryMode := false
          summaryButtonText := "Toggle Summary View (Show Totals Only)"
          headerPriceHidden := false
          footerColspan := 4 } := by
    rw [e1]
    unfold toggleSummaryView
    rfl
  rw [e2, e1]
  refine ⟨rfl, rfl, rfl, ?_, rfl, rfl, rfl, ?_⟩
  · intro r hr
    rw [renderProducts_priceClass _ _ r hr]
    rfl
  · intro r hr
    rw [renderProducts_priceClass _ _ r hr]
    rfl

/-- Witness for `C9` at the initial state. -/
theorem toggleSummaryView_columns_witness :
    (toggleSummaryView (initialState 0 0)).headerPriceHidden = true ∧
    (toggleSummaryView (initialState 0 0)).footerColspan = 3 ∧
    (toggleSummaryView (toggleSummaryView (initialState 0 0))).headerPriceHidden = false ∧
    (toggleSummaryView (toggleSummaryView (initialState 0 0))).footerColspan = 4 := by
  obtain ⟨_, h2, h3, _, _, h6, h7, _⟩ :=
    toggleSummaryView_columns (initialState 0 0) (by decide)
  exact ⟨h2, h3, h6, h7⟩

/-- `C10`: toggling the view mode leaves the items list — hence ids,
names, prices, quantities and their order — and all three aggregate
figures unchanged. -/
theorem toggleSummaryView_frame (s : State) :
    (toggleSummaryView s).products = s.products ∧
    subtotal (toggleSummaryView s).products = subtotal s.products ∧
    vatAmount (toggleSummaryView s).products = vatAmount s.products ∧
    grandTotal (toggleSummaryView s).products = grandTotal s.products :=
  ⟨toggleSummaryView_products s,
   by rw [toggleSummaryView_products],
   by rw [toggleSummaryView_products],
   by rw [toggleSummaryView_products]⟩

end FidesQuotation
